import Mathlib

/-!
Verification of the cycle-speedometer firmware core (file src/unnamed/part_000,
the richest revision of the sketch).  The embedding below models, byte for
byte, the EEPROM configuration store, its string codec, the SD-card record
parser, the bootstrap sequence of initMicroSD, the page navigation step of
handleDisplay, and the guarded countdown loops of displayEject /
displayFactoryReset.  Display rendering, serial prints and the actual delay /
halt primitives are pure output and are not part of any state modelled here.
-/

namespace CycleSpeedometer

/-! ## Constants from the sketch (part_000 lines 57-79) -/

/-- part_000 line 57: total seconds of the eject countdown. -/
def ejectSecondsTotal : Nat := 10

/-- part_000 line 61: total seconds of the factory-reset countdown. -/
def memWipeSecondsTotal : Nat := 30

/-- part_000 line 72: EEPROM address of the wheel circumference byte. -/
def circumferenceAddr : Nat := 1

/-- part_000 line 73: EEPROM address of the presence flag byte. -/
def cycleDataInEEPROMAddr : Nat := 0

/-- part_000 line 75: EEPROM address of the rider (operator) name field. -/
def riderNameAddr : Nat := 2

/-- part_000 line 76: EEPROM address of the cycle (device) name field. -/
def cycleNameAddr : Nat := 100

/-- part_000 line 79: number of display pages. -/
def numPages : Nat := 5

/-- part_000 line 653: `EEPROM.begin(512)` -- the reserved region is 512 bytes. -/
def eepromSize : Nat := 512

/-! ## EEPROM model

The store is a byte-addressed array, modelled as a function `Nat → Nat` whose
meaningful cells hold byte values `< 256`.  The emulation library (declared by
`EEPROM.begin(512)`; the library itself is a collaborator outside src/) clamps
accesses to the reserved region: a write at an address `≥ 512` is dropped and a
read there returns 0; `EEPROM.write` stores a `uint8_t`, modelled by `% 256`,
and `EEPROM.read` returns a `uint8_t`. -/

/-- `EEPROM.write(addr, v)`: store the low byte of `v` at `addr` when the
address is inside the 512-byte reserved region. -/
def eepromWrite (e : Nat → Nat) (addr v : Nat) : Nat → Nat :=
  if addr < eepromSize then (fun i => if i = addr then v % 256 else e i) else e

/-- `EEPROM.read(addr)`: the byte stored at `addr`, 0 outside the region. -/
def eepromRead (e : Nat → Nat) (addr : Nat) : Nat :=
  if addr < eepromSize then e addr % 256 else 0

/-- A run of consecutive `EEPROM.write` calls: write the listed bytes at
`addr, addr+1, ...` (the shape of the loop in writeStringToEEPROM,
part_000 lines 683-687). -/
def writeBytes : (Nat → Nat) → Nat → List Nat → Nat → Nat
  | e, _, [] => e
  | e, a, b :: rest => writeBytes (eepromWrite e a b) (a + 1) rest

/-- A run of consecutive `EEPROM.read` calls: the `n` bytes stored at
`addr, ..., addr+n-1` (the shape of the loop in readStringFromEEPROM,
part_000 lines 696-700). -/
def readBytes (e : Nat → Nat) : Nat → Nat → List Nat
  | _, 0 => []
  | a, n + 1 => eepromRead e a :: readBytes e (a + 1) n

/-! ## Arduino String values

An Arduino `String` is a length-counted byte buffer; we model its contents as
a `List Nat` of byte values.  `string.length()` is the list length and
`string[i]` indexes the bytes. -/

/-- The `String(char*)` constructor (Arduino core collaborator, outside src/)
copies a C string, i.e. the bytes up to but excluding the first NUL. -/
def cString (bs : List Nat) : List Nat := bs.takeWhile (fun b => b != 0)

/-- part_000 lines 678-689, `writeStringToEEPROM(addrOffset, string)`:
`byte len = string.length()` truncates the length to one byte; the length
byte goes to `addrOffset` and the first `len` characters to
`addrOffset+1, ...`. -/
def writeStringToEEPROM (e : Nat → Nat) (addrOffset : Nat) (s : List Nat) :
    Nat → Nat :=
  writeBytes (eepromWrite e addrOffset (s.length % 256)) (addrOffset + 1)
    (s.take (s.length % 256))

/-- part_000 lines 691-705, `readStringFromEEPROM(addrOffset)`: read the
length byte, then that many bytes into a buffer, NUL-terminate it and build
an Arduino `String` from the buffer -- so the result stops at the first NUL
byte among the payload bytes. -/
def readStringFromEEPROM (e : Nat → Nat) (addrOffset : Nat) : List Nat :=
  cString (readBytes e (addrOffset + 1) (eepromRead e addrOffset))

/-! ## In-memory configuration and the store operations -/

/-- The four configuration globals of the sketch (part_000 lines 65-70). -/
structure ConfigInMemory where
  cycleDataInEEPROM : Bool
  cycleWheelCircumferenceCM : Nat
  cycleName : List Nat
  riderName : List Nat
deriving DecidableEq

/-- The globals' initial values at power-on (part_000 lines 65-70:
`cycleDataInEEPROM = false`, strings empty, circumference zero-initialised). -/
def initialConfig : ConfigInMemory :=
  { cycleDataInEEPROM := false
    cycleWheelCircumferenceCM := 0
    cycleName := []
    riderName := [] }

/-- part_000 lines 641-649, `loadInfoFromEEPROM()` (the store's readRecord).
Line 643 is `cycleDataInEEPROM = EEPROM.read(cycleDataInEEPROM);` -- the read
address is the integer value of the current boolean (0 when false, 1 when
true), not the constant `cycleDataInEEPROMAddr`; the boolean then becomes
true iff the byte read is non-zero.  This quirk is embedded faithfully, so
the operation takes the previous in-memory state as an argument. -/
def loadInfoFromEEPROM (e : Nat → Nat) (prev : ConfigInMemory) :
    ConfigInMemory :=
  { cycleDataInEEPROM := eepromRead e (if prev.cycleDataInEEPROM then 1 else 0) != 0
    cycleWheelCircumferenceCM := eepromRead e circumferenceAddr
    cycleName := readStringFromEEPROM e cycleNameAddr
    riderName := readStringFromEEPROM e riderNameAddr }

/-- part_000 lines 629-639, `saveInfoToEEPROM()` (the store's writeRecord):
circumference byte at address 1, presence flag at address 0, then
`writeStringToEEPROM(cycleNameAddr, cycleName)` at address 100 and
`writeStringToEEPROM(riderNameAddr, riderName)` at address 2, followed by
`EEPROM.commit()` (which only flushes and changes no byte). -/
def saveInfoToEEPROM (e : Nat → Nat) (c : ConfigInMemory) : Nat → Nat :=
  writeStringToEEPROM
    (writeStringToEEPROM
      (eepromWrite
        (eepromWrite e circumferenceAddr c.cycleWheelCircumferenceCM)
        cycleDataInEEPROMAddr (if c.cycleDataInEEPROM then 1 else 0))
      cycleNameAddr c.cycleName)
    riderNameAddr c.riderName

/-- The write loop of `clearEEPROM()` (part_000 lines 659-663): `k` writes of
the byte 0 at consecutive addresses starting at `a`. -/
def clearLoop : Nat → (Nat → Nat) → Nat → Nat → Nat
  | 0, e, _ => e
  | k + 1, e, a => clearLoop k (eepromWrite e a 0) (a + 1)

/-- part_000 lines 657-676, `clearEEPROM()` (the store's wipe): write 0 to
every address `0 ≤ i < 512`, then commit.  The function afterwards waits for
a button press and advances the page; that navigation step is covered by the
page model below. -/
def clearEEPROM (e : Nat → Nat) : Nat → Nat := clearLoop 512 e 0

/-! ## The SD-card record parser (loadCycleData) -/

/-- The digit-accumulating core of C `atol`, which implements Arduino
`String::toInt` (core library collaborator, outside src/): consume leading
decimal digits, stopping at the first non-digit. -/
def atolDigits : List Nat → Nat → Nat
  | [], acc => acc
  | c :: rest, acc =>
      if 48 ≤ c ∧ c ≤ 57 then atolDigits rest (acc * 10 + (c - 48)) else acc

/-- Arduino `String::toInt` on the byte contents of a string, modelled for
the unsigned decimal form that the record format of the spec (section 6)
gives the circumference field. -/
def arduinoToInt (s : List Nat) : Nat := atolDigits s 0

/-- The loop state of `loadCycleData` (part_000 lines 600-619): the local
`String data[3]`, the field index `pointer`, and a flag recording whether the
loop has executed `data[pointer] += c` with `pointer ≥ 3`.  In the C++
source that access is an out-of-bounds write into a 3-element array
(undefined behaviour); the model records the event in `oob` and drops the
written character, since the C++ program has no defined result there. -/
structure ParseState where
  data : Fin 3 → List Nat
  pointer : Nat
  oob : Bool

/-- One iteration of the read loop of `loadCycleData`: a newline advances
`pointer`, any other character is appended to `data[pointer]`. -/
def parseStep (st : ParseState) (c : Nat) : ParseState :=
  if c = 10 then { st with pointer := st.pointer + 1 }
  else if h : st.pointer < 3 then
    { st with data := fun j => if j = ⟨st.pointer, h⟩ then st.data j ++ [c]
                               else st.data j }
  else { st with oob := true }

/-- The full read loop of `loadCycleData` over the bytes of `info.txt`,
starting from `data = {"", "", ""}`, `pointer = 0`. -/
def parseChars (file : List Nat) : ParseState :=
  file.foldl parseStep { data := fun _ => [], pointer := 0, oob := false }

/-- part_000 lines 576-627, `loadCycleData()`, on the successfully opened
file: run the parse loop, then set
`cycleWheelCircumferenceCM = data[0].toInt()` (assigned to a `uint8_t`,
hence `% 256`), `cycleName = data[1]`, `riderName = data[2]`.  No error is
ever signalled for too few fields. -/
def loadCycleData (file : List Nat) (c : ConfigInMemory) : ConfigInMemory :=
  { c with
    cycleWheelCircumferenceCM := arduinoToInt ((parseChars file).data 0) % 256
    cycleName := (parseChars file).data 1
    riderName := (parseChars file).data 2 }

/-! ## The bootstrap sequence (initMicroSD) -/

/-- The in-memory configuration produced by the bootstrap branch of
`initMicroSD` (part_000 lines 263-304): read the store, parse the SD file,
then set `cycleDataInEEPROM = true` just before saving.  The two BOOTSEL
waits around the confirmation screen block until the operator presses the
button and change no state. -/
def bootstrapConfig (e : Nat → Nat) (file : List Nat) : ConfigInMemory :=
  { loadCycleData file (loadInfoFromEEPROM e initialConfig) with
    cycleDataInEEPROM := true }

/-- part_000 lines 241-308, `initMicroSD()`, on the path where the card
initialises (the Loader is available): `loadInfoFromEEPROM()`; if the
presence flag came back false, load the record from the SD file, wait for
the operator's confirmation press, set the flag and `saveInfoToEEPROM()`.
Returns the final in-memory configuration and the final store contents. -/
def initMicroSD (e : Nat → Nat) (file : List Nat) :
    ConfigInMemory × (Nat → Nat) :=
  if (loadInfoFromEEPROM e initialConfig).cycleDataInEEPROM then
    (loadInfoFromEEPROM e initialConfig, e)
  else
    (bootstrapConfig e file, saveInfoToEEPROM e (bootstrapConfig e file))

/-! ## Page navigation (handleDisplay) -/

/-- The navigation step at the top of `handleDisplay` (part_000 lines
327-334): on a press edge, `page++; page = page % numPages;` and wait for
release (so one physical press advances the page exactly once); otherwise
the page is unchanged.  `page` is a C `int` that starts at 0 and only ever
takes values in `[0, numPages)`, so `Nat` arithmetic is faithful. -/
def handleDisplayStep (press : Bool) (pg : Nat) : Nat :=
  if press then (pg + 1) % numPages else pg

/-- The page selector after a sequence of loop iterations, each with or
without a qualifying press edge, starting from the initial page 0
(part_000 line 78). -/
def runPages (presses : List Bool) : Nat :=
  presses.foldl (fun pg b => handleDisplayStep b pg) 0

/-! ## The guarded countdown loops (displayEject / displayFactoryReset)

Both loops (part_000 lines 453-502 and 525-574) have the same shape; they
differ only in the total (10 vs 30) and the fired action (`eject()` vs
`clearEEPROM()`).  One iteration of the `while(remaining > 0)` loop first
checks `millis()/1000 != prevSeconds` -- a distinct whole-second tick -- and
if so decrements the remaining-seconds counter and re-renders; it then
checks BOOTSEL and, on a press, advances the page by one modulo `numPages`,
resets the counter to the total and returns without firing.  When the loop
condition fails the guarded action runs exactly once. -/

/-- The observable inputs of one countdown-loop iteration: whether a new
whole second has elapsed (`millis()/1000` differs from the stored previous
second) and whether the navigation button is pressed. -/
structure TimerIter where
  newSecond : Bool
  bootsel : Bool
deriving DecidableEq

/-- How one call of a countdown page resolves.  Each constructor carries the
page selector and the remaining-seconds global as the call leaves them:
`fired` -- the loop exited with the counter at 0 and the guarded action ran
(exactly once, at that exit); `cancelled` -- the BOOTSEL branch returned
after advancing the page and resetting the counter; `pending` -- the
modelled iterations ran out while the loop was still live. -/
inductive TimerOutcome where
  | fired : Nat → Nat → TimerOutcome
  | cancelled : Nat → Nat → TimerOutcome
  | pending : Nat → Nat → TimerOutcome
deriving DecidableEq

/-- The countdown loop of `displayEject` / `displayFactoryReset`, driven by
an explicit list of iteration inputs.  `total` is the constant
(`ejectSecondsTotal` or `memWipeSecondsTotal`), `page` the current page
selector, `remaining` the value of the remaining-seconds global at entry
(these globals persist between calls and are NOT reset on entry). -/
def runGuardedTimer (total page remaining : Nat) :
    List TimerIter → TimerOutcome
  | [] =>
      if remaining = 0 then .fired page remaining
      else .pending page remaining
  | it :: rest =>
      if remaining = 0 then .fired page remaining
      else
        -- the tick branch runs first and decrements the counter ...
        let r := if it.newSecond then remaining - 1 else remaining
        -- ... then the BOOTSEL branch overwrites it with the total and returns
        if it.bootsel then .cancelled ((page + 1) % numPages) total
        else runGuardedTimer total page r rest

/-- The value the remaining-seconds global holds after the call resolves
(what a later visit to the same page starts from). -/
def remainingAfter : TimerOutcome → Nat
  | .fired _ r => r
  | .cancelled _ r => r
  | .pending _ r => r

/-- The number of distinct whole-second tick events in a run of iteration
inputs. -/
def countTicks (events : List TimerIter) : Nat :=
  events.countP (fun it => it.newSecond)

/-! ## Concrete test vectors -/

/-- The byte contents of the Arduino string "Trusty". -/
def trustyBytes : List Nat := [84, 114, 117, 115, 116, 121]

/-- The byte contents of the Arduino string "Ada". -/
def adaBytes : List Nat := [65, 100, 97]

/-- The bytes of an `info.txt` holding the record 30 / "Trusty" / "Ada":
"30\nTrusty\nAda". -/
def infoFile : List Nat := [51, 48, 10] ++ trustyBytes ++ [10] ++ adaBytes

/-! ## Helper lemmas about the EEPROM model -/

theorem eepromWrite_ne (e : Nat → Nat) (a v i : Nat) (h : i ≠ a) :
    eepromWrite e a v i = e i := by
  unfold eepromWrite
  split
  · simp [h]
  · rfl

theorem eepromWrite_self (e : Nat → Nat) (a v : Nat) (h : a < eepromSize) :
    eepromWrite e a v a = v % 256 := by
  unfold eepromWrite
  simp [h]

theorem writeBytes_eq_of_lt (l : List Nat) :
    ∀ (e : Nat → Nat) (a i : Nat), i < a → writeBytes e a l i = e i := by
  induction l with
  | nil => intro e a i _; rfl
  | cons b rest ih =>
      intro e a i hi
      show writeBytes (eepromWrite e a b) (a + 1) rest i = e i
      rw [ih (eepromWrite e a b) (a + 1) i (by omega)]
      exact eepromWrite_ne e a b i (by omega)

theorem writeBytes_eq_of_ge (l : List Nat) :
    ∀ (e : Nat → Nat) (a i : Nat), a + l.length ≤ i → writeBytes e a l i = e i := by
  induction l with
  | nil => intro e a i _; rfl
  | cons b rest ih =>
      intro e a i hi
      simp only [List.length_cons] at hi
      show writeBytes (eepromWrite e a b) (a + 1) rest i = e i
      rw [ih (eepromWrite e a b) (a + 1) i (by omega)]
      exact eepromWrite_ne e a b i (by omega)

theorem readBytes_congr (n : Nat) :
    ∀ (e f : Nat → Nat) (a : Nat),
      (∀ i, a ≤ i → i < a + n → e i = f i) →
      readBytes e a n = readBytes f a n := by
  induction n with
  | zero => intro e f a _; rfl
  | succ m ih =>
      intro e f a h
      show eepromRead e a :: readBytes e (a + 1) m =
           eepromRead f a :: readBytes f (a + 1) m
      have ha : e a = f a := h a (Nat.le_refl a) (by omega)
      have : eepromRead e a = eepromRead f a := by
        unfold eepromRead; rw [ha]
      rw [this, ih e f (a + 1) (fun i h1 h2 => h i (by omega) (by omega))]

theorem readBytes_writeBytes (l : List Nat) :
    ∀ (e : Nat → Nat) (a : Nat), a + l.length ≤ eepromSize →
      (∀ b ∈ l, b < 256) →
      readBytes (writeBytes e a l) a l.length = l := by
  induction l with
  | nil => intro e a _ _; rfl
  | cons b rest ih =>
      intro e a hfit hb
      simp only [List.length_cons] at hfit ⊢
      show eepromRead (writeBytes (eepromWrite e a b) (a + 1) rest) a ::
           readBytes (writeBytes (eepromWrite e a b) (a + 1) rest) (a + 1)
             rest.length = b :: rest
      have h1 : writeBytes (eepromWrite e a b) (a + 1) rest a =
          eepromWrite e a b a :=
        writeBytes_eq_of_lt rest (eepromWrite e a b) (a + 1) a (by omega)
      have h2 : eepromWrite e a b a = b % 256 :=
        eepromWrite_self e a b (by omega)
      have hbb : b < 256 := hb b (List.mem_cons_self b rest)
      have h3 : eepromRead (writeBytes (eepromWrite e a b) (a + 1) rest) a = b := by
        unfold eepromRead
        rw [h1, h2]
        have : a < eepromSize := by omega
        simp [this, Nat.mod_eq_of_lt hbb]
      rw [h3, ih (eepromWrite e a b) (a + 1) (by omega)
        (fun x hx => hb x (List.mem_cons_of_mem b hx))]

theorem cString_eq_self (l : List Nat) (h : ∀ b ∈ l, b ≠ 0) :
    cString l = l := by
  induction l with
  | nil => rfl
  | cons b rest ih =>
      unfold cString at *
      have hb : b ≠ 0 := h b (List.mem_cons_self b rest)
      simp only [List.takeWhile_cons]
      have : (b != 0) = true := by simpa using hb
      rw [this]
      simp only [ite_true]
      rw [ih (fun x hx => h x (List.mem_cons_of_mem b hx))]

theorem eepromRead_le (e : Nat → Nat) (a : Nat) : eepromRead e a ≤ 255 := by
  unfold eepromRead
  split
  · have := Nat.mod_lt (e a) (show 0 < 256 by omega)
    omega
  · omega

/-- The string codec round-trip on the byte level: writing a NUL-free byte
string whose slot fits inside the 512-byte region and reading it back at the
same address reproduces it exactly. -/
theorem readString_writeString (e : Nat → Nat) (a : Nat) (s : List Nat)
    (hlen : s.length ≤ 255) (hfit : a + 1 + s.length ≤ eepromSize)
    (hb : ∀ b ∈ s, b < 256) (hnz : ∀ b ∈ s, b ≠ 0) :
    readStringFromEEPROM (writeStringToEEPROM e a s) a = s := by
  have hmod : s.length % 256 = s.length := Nat.mod_eq_of_lt (by omega)
  unfold readStringFromEEPROM writeStringToEEPROM
  rw [hmod, List.take_length]
  have ha : a < eepromSize := by omega
  have hlenbyte :
      eepromRead (writeBytes (eepromWrite e a (s.length % 256)) (a + 1) s) a =
      s.length := by
    unfold eepromRead
    rw [writeBytes_eq_of_lt s _ (a + 1) a (by omega),
      eepromWrite_self e a _ ha, hmod]
    simp [ha, Nat.mod_eq_of_lt (show s.length < 256 by omega)]
  rw [hmod] at hlenbyte
  rw [hlenbyte,
    readBytes_writeBytes s (eepromWrite e a s.length) (a + 1) (by omega) hb]
  exact cString_eq_self s hnz

theorem writeString_eq_of_lt (e : Nat → Nat) (a : Nat) (s : List Nat)
    (i : Nat) (h : i < a) : writeStringToEEPROM e a s i = e i := by
  unfold writeStringToEEPROM
  rw [writeBytes_eq_of_lt _ _ (a + 1) i (by omega)]
  exact eepromWrite_ne e a _ i (by omega)

theorem writeString_eq_of_ge (e : Nat → Nat) (a : Nat) (s : List Nat)
    (i : Nat) (h : a + 1 + s.length % 256 ≤ i) :
    writeStringToEEPROM e a s i = e i := by
  unfold writeStringToEEPROM
  have htl : (s.take (s.length % 256)).length = s.length % 256 := by
    rw [List.length_take]
    exact Nat.min_le_left _ _ |>.antisymm (by
      simp [Nat.le_min]
      exact Nat.mod_le _ _)
  rw [writeBytes_eq_of_ge _ _ (a + 1) i (by omega)]
  exact eepromWrite_ne e a _ i (by omega)

/-- `readStringFromEEPROM` only looks at the 257 bytes starting at the
field's address (the length byte plus at most 255 payload bytes). -/
theorem readString_congr (e f : Nat → Nat) (a : Nat)
    (h : ∀ i, a ≤ i → i < a + 257 → e i = f i) :
    readStringFromEEPROM e a = readStringFromEEPROM f a := by
  unfold readStringFromEEPROM
  have ha : eepromRead e a = eepromRead f a := by
    unfold eepromRead
    rw [h a (Nat.le_refl a) (by omega)]
  rw [ha]
  have hlen := eepromRead_le f a
  rw [readBytes_congr (eepromRead f a) e f (a + 1)
    (fun i h1 h2 => h i (by omega) (by omega))]

theorem clearLoop_eq_of_lt :
    ∀ (k : Nat) (e : Nat → Nat) (a i : Nat), i < a → clearLoop k e a i = e i := by
  intro k
  induction k with
  | zero => intro e a i _; rfl
  | succ m ih =>
      intro e a i hi
      show clearLoop m (eepromWrite e a 0) (a + 1) i = e i
      rw [ih (eepromWrite e a 0) (a + 1) i (by omega)]
      exact eepromWrite_ne e a 0 i (by omega)

theorem clearLoop_eq_zero :
    ∀ (k : Nat) (e : Nat → Nat) (a i : Nat),
      a ≤ i → i < a + k → i < eepromSize → clearLoop k e a i = 0 := by
  intro k
  induction k with
  | zero => intro e a i h1 h2 _; omega
  | succ m ih =>
      intro e a i h1 h2 h3
      show clearLoop m (eepromWrite e a 0) (a + 1) i = 0
      rcases Nat.eq_or_lt_of_le h1 with heq | hlt
      · subst heq
        rw [clearLoop_eq_of_lt m (eepromWrite e a 0) (a + 1) a (by omega)]
        rw [eepromWrite_self e a 0 h3]
      · exact ih (eepromWrite e a 0) (a + 1) i (by omega) (by omega) h3

/-! ## Helper lemmas about the guarded countdown loop -/

theorem countTicks_nil : countTicks [] = 0 := rfl

theorem countTicks_cons (it : TimerIter) (rest : List TimerIter) :
    countTicks (it :: rest) =
      countTicks rest + (if it.newSecond then 1 else 0) := by
  simp [countTicks, List.countP_cons]

/-- With the remaining-seconds global already at 0, the loop body never runs
and the guarded action fires at once. -/
theorem runGuardedTimer_zero (total p : Nat) (events : List TimerIter) :
    runGuardedTimer total p 0 events = .fired p 0 := by
  cases events <;> simp [runGuardedTimer]

theorem runGuardedTimer_nil_pos (total p r : Nat) (hz : r ≠ 0) :
    runGuardedTimer total p r [] = .pending p r := by
  unfold runGuardedTimer
  rw [if_neg hz]

/-- One live loop iteration without a cancel press: the counter ticks down
when a new second has elapsed and the loop continues. -/
theorem runGuardedTimer_cons_continue (total p r : Nat) (it : TimerIter)
    (rest : List TimerIter) (hz : r ≠ 0) (hb : it.bootsel = false) :
    runGuardedTimer total p r (it :: rest) =
      runGuardedTimer total p (if it.newSecond then r - 1 else r) rest := by
  simp only [runGuardedTimer]
  rw [if_neg hz, hb]
  simp

/-- One live loop iteration with the cancel press: the page advances by one
modulo `numPages`, the counter is reset to the total, and the loop returns
without firing. -/
theorem runGuardedTimer_cons_cancel (total p r : Nat) (it : TimerIter)
    (rest : List TimerIter) (hz : r ≠ 0) (hb : it.bootsel = true) :
    runGuardedTimer total p r (it :: rest) =
      .cancelled ((p + 1) % numPages) total := by
  simp only [runGuardedTimer]
  rw [if_neg hz, hb]
  simp

theorem runGuardedTimer_fired :
    ∀ (events : List TimerIter) (total p r : Nat),
      (∀ it ∈ events, it.bootsel = false) →
      countTicks events = r →
      runGuardedTimer total p r events = .fired p 0 := by
  intro events
  induction events with
  | nil =>
      intro total p r _ hr
      have hz : r = 0 := by rw [← hr, countTicks_nil]
      subst hz
      rfl
  | cons it rest ih =>
      intro total p r hnc hr
      have hb : it.bootsel = false := hnc it (List.mem_cons_self _ _)
      have hrest : ∀ x ∈ rest, x.bootsel = false :=
        fun x hx => hnc x (List.mem_cons_of_mem it hx)
      rw [countTicks_cons] at hr
      by_cases hz : r = 0
      · subst hz
        exact runGuardedTimer_zero total p _
      · rw [runGuardedTimer_cons_continue total p r it rest hz hb]
        cases hts : it.newSecond
        · rw [if_neg (by simp [hts])]
          rw [hts] at hr
          simp at hr
          exact ih total p r hrest hr
        · rw [if_pos rfl]
          rw [hts] at hr
          simp at hr
          exact ih total p (r - 1) hrest (by omega)

theorem runGuardedTimer_pending :
    ∀ (events : List TimerIter) (total p r : Nat),
      (∀ it ∈ events, it.bootsel = false) →
      countTicks events < r →
      runGuardedTimer total p r events =
        .pending p (r - countTicks events) := by
  intro events
  induction events with
  | nil =>
      intro total p r _ hr
      rw [countTicks_nil] at hr ⊢
      rw [Nat.sub_zero]
      exact runGuardedTimer_nil_pos total p r (by omega)
  | cons it rest ih =>
      intro total p r hnc hr
      have hb : it.bootsel = false := hnc it (List.mem_cons_self _ _)
      have hrest : ∀ x ∈ rest, x.bootsel = false :=
        fun x hx => hnc x (List.mem_cons_of_mem it hx)
      rw [countTicks_cons] at hr
      have hz : r ≠ 0 := by omega
      rw [runGuardedTimer_cons_continue total p r it rest hz hb]
      cases hts : it.newSecond
      · rw [if_neg (by simp [hts])]
        rw [hts] at hr
        simp at hr
        have hgoal : r - countTicks (it :: rest) = r - countTicks rest := by
          rw [countTicks_cons, hts]
          simp
        rw [hgoal]
        exact ih total p r hrest hr
      · rw [if_pos rfl]
        rw [hts] at hr
        simp at hr
        have hgoal : r - countTicks (it :: rest) = r - 1 - countTicks rest := by
          rw [countTicks_cons, hts]
          simp
          omega
        rw [hgoal]
        exact ih total p (r - 1) hrest (by omega)

theorem runGuardedTimer_cancelled :
    ∀ (pre : List TimerIter) (total p r : Nat) (t : Bool)
      (post : List TimerIter),
      (∀ it ∈ pre, it.bootsel = false) →
      countTicks pre < r →
      runGuardedTimer total p r (pre ++ ⟨t, true⟩ :: post) =
        .cancelled ((p + 1) % numPages) total := by
  intro pre
  induction pre with
  | nil =>
      intro total p r t post _ hr
      rw [countTicks_nil] at hr
      show runGuardedTimer total p r (⟨t, true⟩ :: post) = _
      exact runGuardedTimer_cons_cancel total p r ⟨t, true⟩ post (by omega) rfl
  | cons it rest ih =>
      intro total p r t post hnc hr
      have hb : it.bootsel = false := hnc it (List.mem_cons_self _ _)
      have hrest : ∀ x ∈ rest, x.bootsel = false :=
        fun x hx => hnc x (List.mem_cons_of_mem it hx)
      rw [countTicks_cons] at hr
      have hz : r ≠ 0 := by omega
      show runGuardedTimer total p r (it :: (rest ++ ⟨t, true⟩ :: post)) = _
      rw [runGuardedTimer_cons_continue total p r it
        (rest ++ ⟨t, true⟩ :: post) hz hb]
      cases hts : it.newSecond
      · rw [if_neg (by simp [hts])]
        rw [hts] at hr
        simp at hr
        exact ih total p r t post hrest hr
      · rw [if_pos rfl]
        rw [hts] at hr
        simp at hr
        exact ih total p (r - 1) t post hrest (by omega)

/-! ## Helper lemmas about page navigation -/

theorem pagesFold_lt (l : List Bool) :
    ∀ pg : Nat, pg < numPages →
      List.foldl (fun a b => handleDisplayStep b a) pg l < numPages := by
  induction l with
  | nil => intro pg h; simpa using h
  | cons b rest ih =>
      intro pg h
      show List.foldl _ (handleDisplayStep b pg) rest < numPages
      apply ih
      unfold handleDisplayStep
      split
      · exact Nat.mod_lt _ (by decide)
      · exact h

theorem pagesFold_replicate :
    ∀ (k pg : Nat), pg < numPages →
      List.foldl (fun a b => handleDisplayStep b a) pg (List.replicate k true) =
        (pg + k) % numPages := by
  intro k
  induction k with
  | zero =>
      intro pg h
      simp [Nat.mod_eq_of_lt h]
  | succ m ih =>
      intro pg h
      rw [List.replicate_succ]
      show List.foldl _ (handleDisplayStep true pg) (List.replicate m true) = _
      have hstep : handleDisplayStep true pg = (pg + 1) % numPages := rfl
      rw [hstep, ih ((pg + 1) % numPages) (Nat.mod_lt _ (by decide)),
        Nat.mod_add_mod]
      congr 1
      omega

/-! ## The claims -/

/-- C1: for every totalSeconds `T` (10 for eject, 30 for factory reset, and
in fact any `T`), a guarded countdown entered with its counter at `T` and
driven by iterations containing exactly `T` distinct whole-second tick
events and no cancel input fires its guarded action exactly once -- the loop
exits exactly once, at the `T`-th tick, and runs the action at that exit --
and under fewer than `T` such ticks it has not fired (the loop is still
counting). -/
theorem claim_C1_timer_fires_at_T (T p : Nat) (events : List TimerIter)
    (hnc : ∀ it ∈ events, it.bootsel = false) :
    (countTicks events = T → runGuardedTimer T p T events = .fired p 0) ∧
    (countTicks events < T →
      runGuardedTimer T p T events = .pending p (T - countTicks events)) :=
  ⟨fun h => runGuardedTimer_fired events T p T hnc h,
   fun h => runGuardedTimer_pending events T p T hnc h⟩

/-- Witness for C1 at the eject total `T = 10`: ten tick-only iterations
fire, nine leave the countdown pending with one second left. -/
theorem claim_C1_timer_fires_at_T_witness :
    runGuardedTimer 10 2 10 (List.replicate 10 ⟨true, false⟩) =
      .fired 2 0 ∧
    runGuardedTimer 10 2 10 (List.replicate 9 ⟨true, false⟩) =
      .pending 2 (10 - countTicks (List.replicate 9 ⟨true, false⟩)) :=
  ⟨(claim_C1_timer_fires_at_T 10 2 (List.replicate 10 ⟨true, false⟩)
      (by decide)).1 (by decide),
   (claim_C1_timer_fires_at_T 10 2 (List.replicate 9 ⟨true, false⟩)
      (by decide)).2 (by decide)⟩

/-- C2 (code-bug evidence): a full 30-tick factory-reset countdown fires and
leaves the remaining-seconds global at 0 (`clearEEPROM` never resets it, see
part_000 lines 657-676), so the next dispatch to the factory-reset page
enters its `Counting` phase with `remainingSeconds = 0 ≠ 30` and fires the
wipe again immediately, with zero tick events -- there is no per-entry reset
`remainingSeconds = totalSeconds` anywhere in displayFactoryReset
(part_000 lines 525-574): only the cancel branch (line 561) restores the
total. -/
theorem claim_C2_entry_not_reset_after_expiry :
    remainingAfter (runGuardedTimer memWipeSecondsTotal 3 memWipeSecondsTotal
      (List.replicate 30 ⟨true, false⟩)) = 0 ∧
    runGuardedTimer memWipeSecondsTotal 3
      (remainingAfter (runGuardedTimer memWipeSecondsTotal 3
        memWipeSecondsTotal (List.replicate 30 ⟨true, false⟩))) [] =
      .fired 3 0 ∧
    memWipeSecondsTotal ≠ 0 := by
  decide

/-- C3: at any point of a guarded countdown at which the counter is still
positive (any prefix of cancel-free iterations carrying fewer ticks than the
total), a cancel (navigation) input makes the call return `cancelled`: the
remaining-seconds global is reset to the total, the guarded action does not
run, and the page selector advances by exactly one modulo `numPages`. -/
theorem claim_C3_cancel_resets_and_navigates (total p : Nat)
    (pre post : List TimerIter) (t : Bool)
    (hnc : ∀ it ∈ pre, it.bootsel = false)
    (hlt : countTicks pre < total) :
    runGuardedTimer total p total (pre ++ ⟨t, true⟩ :: post) =
      .cancelled ((p + 1) % numPages) total :=
  runGuardedTimer_cancelled pre total p total t post hnc hlt

/-- Witness for C3: cancelling the eject countdown after 3 of its 10 ticks,
from page 4, lands on page `(4 + 1) % 5 = 0` with the counter back at 10. -/
theorem claim_C3_cancel_resets_and_navigates_witness :
    runGuardedTimer 10 4 10
      (List.replicate 3 ⟨true, false⟩ ++ ⟨true, true⟩ :: []) =
      .cancelled ((4 + 1) % numPages) 10 :=
  claim_C3_cancel_resets_and_navigates 10 4 (List.replicate 3 ⟨true, false⟩)
    [] true (by decide) (by decide)

/-- C4 (counterexample): the valid-length string consisting of the single
byte 0 does not survive the round-trip at the operator-name slot: the
`String(char*)` constructor in readStringFromEEPROM stops at the first NUL
byte, so the 1-byte string comes back as the empty string. -/
theorem claim_C4_roundtrip_counterexample :
    readStringFromEEPROM
      (writeStringToEEPROM (fun _ => 0) riderNameAddr [0]) riderNameAddr ≠
      [0] := by
  decide

/-- C4 (amended): for every string `s` containing no NUL byte whose length
is in the store's valid string length range for the slot at `addr` (at most
255, with the length byte and payload inside the 512-byte region -- both
implied by the slot budgets of the layout), reading back after writing
reproduces `s` exactly. -/
theorem claim_C4_roundtrip (e : Nat → Nat) (addr : Nat) (s : List Nat)
    (hlen : s.length ≤ 255) (hfit : addr + 1 + s.length ≤ eepromSize)
    (hbyte : ∀ b ∈ s, b < 256) (hnul : ∀ b ∈ s, b ≠ 0) :
    readStringFromEEPROM (writeStringToEEPROM e addr s) addr = s :=
  readString_writeString e addr s hlen hfit hbyte hnul

/-- Witness for C4: "Ada" round-trips at the operator-name slot. -/
theorem claim_C4_roundtrip_witness :
    readStringFromEEPROM
      (writeStringToEEPROM (fun _ => 0) riderNameAddr adaBytes)
      riderNameAddr = adaBytes :=
  claim_C4_roundtrip (fun _ => 0) riderNameAddr adaBytes (by decide)
    (by decide) (by decide) (by decide)

/-- C5: `clearEEPROM()` (the store's wipe) overwrites all 512 bytes of the
reserved region with zero, and whatever the prior store contents `e` and
prior in-memory state `c`, a `loadInfoFromEEPROM` (readRecord) performed
after the wipe yields `cycleDataInEEPROM = false` (the presence-flag read --
at address 0 or 1 depending on the in-memory boolean, see the model of line
643 -- finds a zeroed byte either way). -/
theorem claim_C5_wipe_clears_presence (e : Nat → Nat) (c : ConfigInMemory) :
    (∀ i, i < eepromSize → clearEEPROM e i = 0) ∧
    (loadInfoFromEEPROM (clearEEPROM e) c).cycleDataInEEPROM = false := by
  have hsize : eepromSize = 512 := rfl
  constructor
  · intro i hi
    exact clearLoop_eq_zero 512 e 0 i (Nat.zero_le i) (by omega) hi
  · have haddr : (if c.cycleDataInEEPROM then 1 else 0) < eepromSize := by
      cases c.cycleDataInEEPROM <;> decide
    have h0 : clearEEPROM e (if c.cycleDataInEEPROM then 1 else 0) = 0 :=
      clearLoop_eq_zero 512 e 0 _ (Nat.zero_le _) (by omega) haddr
    show (eepromRead (clearEEPROM e)
      (if c.cycleDataInEEPROM then 1 else 0) != 0) = false
    unfold eepromRead
    rw [if_pos haddr, h0]
    rfl

/-- Witness for C5 at a store holding 37 everywhere and a previously loaded
in-memory state: byte 9 is zeroed and the presence flag reads back false. -/
theorem claim_C5_wipe_clears_presence_witness :
    clearEEPROM (fun _ => 37) 9 = 0 ∧
    (loadInfoFromEEPROM (clearEEPROM (fun _ => 37))
      { cycleDataInEEPROM := true, cycleWheelCircumferenceCM := 30,
        cycleName := trustyBytes, riderName := adaBytes }).cycleDataInEEPROM =
      false :=
  ⟨(claim_C5_wipe_clears_presence (fun _ => 37)
      { cycleDataInEEPROM := true, cycleWheelCircumferenceCM := 30,
        cycleName := trustyBytes, riderName := adaBytes }).1 9 (by decide),
   (claim_C5_wipe_clears_presence (fun _ => 37)
      { cycleDataInEEPROM := true, cycleWheelCircumferenceCM := 30,
        cycleName := trustyBytes, riderName := adaBytes }).2⟩

/-- C6: the page navigation state machine of handleDisplay, started at page
0 with `numPages = 5`, is at page `k % numPages` after `k` qualifying press
edges, and under ANY sequence of loop iterations (with or without press
edges) the page selector never leaves `[0, numPages)`. -/
theorem claim_C6_page_navigation :
    (∀ k : Nat, runPages (List.replicate k true) = k % numPages) ∧
    (∀ presses : List Bool, runPages presses < numPages) := by
  constructor
  · intro k
    unfold runPages
    rw [pagesFold_replicate k 0 (by decide), Nat.zero_add]
  · intro presses
    exact pagesFold_lt presses 0 (by decide)

/-- C7: starting from any store whose presence byte (address 0) is 0
(`hasData = false`) and an `info.txt` reading "30\nTrusty\nAda", the
bootstrap path of initMicroSD parses the record, waits for the operator's
confirmation press, sets the flag and commits; a subsequent readRecord on
the resulting store and in-memory state returns `hasData = true`,
circumference 30, device name "Trusty" (the sketch's cycleName) and
operator name "Ada" (the sketch's riderName). -/
theorem claim_C7_bootstrap_commit (e : Nat → Nat) (h : e 0 = 0) :
    (loadInfoFromEEPROM (initMicroSD e infoFile).2
        (initMicroSD e infoFile).1).cycleDataInEEPROM = true ∧
    (loadInfoFromEEPROM (initMicroSD e infoFile).2
        (initMicroSD e infoFile).1).cycleWheelCircumferenceCM = 30 ∧
    (loadInfoFromEEPROM (initMicroSD e infoFile).2
        (initMicroSD e infoFile).1).cycleName = trustyBytes ∧
    (loadInfoFromEEPROM (initMicroSD e infoFile).2
        (initMicroSD e infoFile).1).riderName = adaBytes := by
  have hflag : (loadInfoFromEEPROM e initialConfig).cycleDataInEEPROM =
      false := by
    show (eepromRead e 0 != 0) = false
    unfold eepromRead
    rw [if_pos (by decide : (0 : Nat) < eepromSize), h]
    rfl
  have h0 : arduinoToInt ((parseChars infoFile).data 0) % 256 = 30 := by
    decide
  have h1 : (parseChars infoFile).data 1 = trustyBytes := by decide
  have h2 : (parseChars infoFile).data 2 = adaBytes := by decide
  have hcfg : bootstrapConfig e infoFile =
      { cycleDataInEEPROM := true, cycleWheelCircumferenceCM := 30,
        cycleName := trustyBytes, riderName := adaBytes } := by
    unfold bootstrapConfig loadCycleData
    simp [h0, h1, h2]
  have hrun : initMicroSD e infoFile =
      ({ cycleDataInEEPROM := true, cycleWheelCircumferenceCM := 30,
         cycleName := trustyBytes, riderName := adaBytes },
       saveInfoToEEPROM e
         { cycleDataInEEPROM := true, cycleWheelCircumferenceCM := 30,
           cycleName := trustyBytes, riderName := adaBytes }) := by
    unfold initMicroSD
    rw [hflag, hcfg]
    rw [if_neg (by decide : ¬(false = true))]
  have hE : saveInfoToEEPROM e
      { cycleDataInEEPROM := true, cycleWheelCircumferenceCM := 30,
        cycleName := trustyBytes, riderName := adaBytes } =
      writeStringToEEPROM
        (writeStringToEEPROM (eepromWrite (eepromWrite e 1 30) 0 1) 100
          trustyBytes) 2 adaBytes := rfl
  have hE1 : eepromRead (saveInfoToEEPROM e
      { cycleDataInEEPROM := true, cycleWheelCircumferenceCM := 30,
        cycleName := trustyBytes, riderName := adaBytes }) 1 = 30 := by
    rw [hE]
    unfold eepromRead
    rw [if_pos (by decide : (1 : Nat) < eepromSize),
      writeString_eq_of_lt _ 2 adaBytes 1 (by decide),
      writeString_eq_of_lt _ 100 trustyBytes 1 (by decide),
      eepromWrite_ne _ 0 1 1 (by decide),
      eepromWrite_self e 1 30 (by decide)]
  have hname : readStringFromEEPROM (saveInfoToEEPROM e
      { cycleDataInEEPROM := true, cycleWheelCircumferenceCM := 30,
        cycleName := trustyBytes, riderName := adaBytes }) 100 =
      trustyBytes := by
    rw [hE]
    rw [readString_congr _
      (writeStringToEEPROM (eepromWrite (eepromWrite e 1 30) 0 1) 100
        trustyBytes) 100
      (fun i h1 h2 => writeString_eq_of_ge _ 2 adaBytes i (by
        have hl : adaBytes.length % 256 = 3 := by decide
        omega))]
    exact readString_writeString _ 100 trustyBytes (by decide) (by decide)
      (by decide) (by decide)
  have hrider : readStringFromEEPROM (saveInfoToEEPROM e
      { cycleDataInEEPROM := true, cycleWheelCircumferenceCM := 30,
        cycleName := trustyBytes, riderName := adaBytes }) 2 = adaBytes := by
    rw [hE]
    exact readString_writeString _ 2 adaBytes (by decide) (by decide)
      (by decide) (by decide)
  rw [hrun]
  refine ⟨?_, ?_, ?_, ?_⟩
  · show (eepromRead (saveInfoToEEPROM e
      { cycleDataInEEPROM := true, cycleWheelCircumferenceCM := 30,
        cycleName := trustyBytes, riderName := adaBytes }) 1 != 0) = true
    rw [hE1]
    rfl
  · show eepromRead (saveInfoToEEPROM e
      { cycleDataInEEPROM := true, cycleWheelCircumferenceCM := 30,
        cycleName := trustyBytes, riderName := adaBytes }) 1 = 30
    exact hE1
  · show readStringFromEEPROM (saveInfoToEEPROM e
      { cycleDataInEEPROM := true, cycleWheelCircumferenceCM := 30,
        cycleName := trustyBytes, riderName := adaBytes }) 100 = trustyBytes
    exact hname
  · show readStringFromEEPROM (saveInfoToEEPROM e
      { cycleDataInEEPROM := true, cycleWheelCircumferenceCM := 30,
        cycleName := trustyBytes, riderName := adaBytes }) 2 = adaBytes
    exact hrider

/-- Witness for C7 at the all-zero store. -/
theorem claim_C7_bootstrap_commit_witness :
    (loadInfoFromEEPROM (initMicroSD (fun _ => 0) infoFile).2
        (initMicroSD (fun _ => 0) infoFile).1).cycleDataInEEPROM = true ∧
    (loadInfoFromEEPROM (initMicroSD (fun _ => 0) infoFile).2
        (initMicroSD (fun _ => 0) infoFile).1).cycleWheelCircumferenceCM =
      30 ∧
    (loadInfoFromEEPROM (initMicroSD (fun _ => 0) infoFile).2
        (initMicroSD (fun _ => 0) infoFile).1).cycleName = trustyBytes ∧
    (loadInfoFromEEPROM (initMicroSD (fun _ => 0) infoFile).2
        (initMicroSD (fun _ => 0) infoFile).1).riderName = adaBytes :=
  claim_C7_bootstrap_commit (fun _ => 0) rfl

/-- C8 (counterexample): commit a record whose device name is "Trusty"
(6 bytes) and whose operator name is "Ada" (3 bytes) to the all-zero store.
The length byte at address 2 is 3 -- the OPERATOR name's length, not the
device name's 6, which instead sits at address 100: the sketch assigns
`riderNameAddr = 2` and `cycleNameAddr = 100` (part_000 lines 75-76), the
opposite of the claimed layout. -/
theorem claim_C8_layout_counterexample :
    saveInfoToEEPROM (fun _ => 0)
      { cycleDataInEEPROM := true, cycleWheelCircumferenceCM := 30,
        cycleName := trustyBytes, riderName := adaBytes } riderNameAddr =
      adaBytes.length ∧
    saveInfoToEEPROM (fun _ => 0)
      { cycleDataInEEPROM := true, cycleWheelCircumferenceCM := 30,
        cycleName := trustyBytes, riderName := adaBytes } riderNameAddr ≠
      trustyBytes.length ∧
    saveInfoToEEPROM (fun _ => 0)
      { cycleDataInEEPROM := true, cycleWheelCircumferenceCM := 30,
        cycleName := trustyBytes, riderName := adaBytes } cycleNameAddr =
      trustyBytes.length := by
  decide

/-- C8 (amended): the store layout maps the presence flag to byte address 0,
the wheel circumference to byte address 1, the OPERATOR-name field (length
byte plus payload) to addresses starting at 2, and the DEVICE-name field
(length byte plus payload) to addresses starting at 100; writeRecord
(saveInfoToEEPROM) writes each field at exactly these addresses, for every
record whose strings respect the slot budgets (operator name at most 97
bytes, device name at most 255) with byte-valued contents. -/
theorem claim_C8_layout (e : Nat → Nat) (c : ConfigInMemory)
    (hrn : c.riderName.length ≤ 97) (hcn : c.cycleName.length ≤ 255)
    (hrb : ∀ b ∈ c.riderName, b < 256) (hcb : ∀ b ∈ c.cycleName, b < 256)
    (hcirc : c.cycleWheelCircumferenceCM < 256) :
    saveInfoToEEPROM e c cycleDataInEEPROMAddr =
      (if c.cycleDataInEEPROM then 1 else 0) ∧
    saveInfoToEEPROM e c circumferenceAddr = c.cycleWheelCircumferenceCM ∧
    saveInfoToEEPROM e c riderNameAddr = c.riderName.length ∧
    readBytes (saveInfoToEEPROM e c) (riderNameAddr + 1)
      c.riderName.length = c.riderName ∧
    saveInfoToEEPROM e c cycleNameAddr = c.cycleName.length ∧
    readBytes (saveInfoToEEPROM e c) (cycleNameAddr + 1)
      c.cycleName.length = c.cycleName := by
  have hsize : eepromSize = 512 := rfl
  have hE : saveInfoToEEPROM e c =
      writeStringToEEPROM
        (writeStringToEEPROM
          (eepromWrite (eepromWrite e 1 c.cycleWheelCircumferenceCM) 0
            (if c.cycleDataInEEPROM then 1 else 0))
          100 c.cycleName)
        2 c.riderName := rfl
  have hmr : c.riderName.length % 256 = c.riderName.length :=
    Nat.mod_eq_of_lt (by omega)
  have hmc : c.cycleName.length % 256 = c.cycleName.length :=
    Nat.mod_eq_of_lt (by omega)
  have hEr : writeStringToEEPROM
      (writeStringToEEPROM
        (eepromWrite (eepromWrite e 1 c.cycleWheelCircumferenceCM) 0
          (if c.cycleDataInEEPROM then 1 else 0))
        100 c.cycleName)
      2 c.riderName =
      writeBytes
        (eepromWrite
          (writeStringToEEPROM
            (eepromWrite (eepromWrite e 1 c.cycleWheelCircumferenceCM) 0
              (if c.cycleDataInEEPROM then 1 else 0))
            100 c.cycleName)
          2 (c.riderName.length % 256))
        3 (c.riderName.take (c.riderName.length % 256)) := rfl
  have hEc : writeStringToEEPROM
      (eepromWrite (eepromWrite e 1 c.cycleWheelCircumferenceCM) 0
        (if c.cycleDataInEEPROM then 1 else 0))
      100 c.cycleName =
      writeBytes
        (eepromWrite
          (eepromWrite (eepromWrite e 1 c.cycleWheelCircumferenceCM) 0
            (if c.cycleDataInEEPROM then 1 else 0))
          100 (c.cycleName.length % 256))
        101 (c.cycleName.take (c.cycleName.length % 256)) := rfl
  refine ⟨?_, ?_, ?_, ?_, ?_, ?_⟩
  · show saveInfoToEEPROM e c 0 = _
    rw [hE, writeString_eq_of_lt _ 2 c.riderName 0 (by decide),
      writeString_eq_of_lt _ 100 c.cycleName 0 (by decide),
      eepromWrite_self _ 0 _ (by decide)]
    cases c.cycleDataInEEPROM <;> rfl
  · show saveInfoToEEPROM e c 1 = _
    rw [hE, writeString_eq_of_lt _ 2 c.riderName 1 (by decide),
      writeString_eq_of_lt _ 100 c.cycleName 1 (by decide),
      eepromWrite_ne _ 0 _ 1 (by decide),
      eepromWrite_self e 1 _ (by decide)]
    exact Nat.mod_eq_of_lt hcirc
  · show saveInfoToEEPROM e c 2 = _
    rw [hE, hEr, writeBytes_eq_of_lt _ _ 3 2 (by decide),
      eepromWrite_self _ 2 _ (by decide)]
    omega
  · show readBytes (saveInfoToEEPROM e c) 3 c.riderName.length =
      c.riderName
    rw [hE, hEr, hmr, List.take_length]
    exact readBytes_writeBytes c.riderName _ 3 (by omega) hrb
  · show saveInfoToEEPROM e c 100 = _
    rw [hE, writeString_eq_of_ge _ 2 c.riderName 100 (by omega),
      hEc, writeBytes_eq_of_lt _ _ 101 100 (by decide),
      eepromWrite_self _ 100 _ (by decide)]
    omega
  · show readBytes (saveInfoToEEPROM e c) 101 c.cycleName.length =
      c.cycleName
    rw [hE]
    rw [readBytes_congr c.cycleName.length _
      (writeStringToEEPROM
        (eepromWrite (eepromWrite e 1 c.cycleWheelCircumferenceCM) 0
          (if c.cycleDataInEEPROM then 1 else 0))
        100 c.cycleName) 101
      (fun i hi1 hi2 => writeString_eq_of_ge _ 2 c.riderName i (by omega))]
    rw [hEc, hmc, List.take_length]
    exact readBytes_writeBytes c.cycleName _ 101 (by omega) hcb

/-- Witness for C8 (amended) at the all-zero store with the Trusty / Ada
record: flag byte 1 at 0, circumference 30 at 1, operator-name field at 2,
device-name field at 100. -/
theorem claim_C8_layout_witness :
    saveInfoToEEPROM (fun _ => 0)
      { cycleDataInEEPROM := true, cycleWheelCircumferenceCM := 30,
        cycleName := trustyBytes, riderName := adaBytes }
      cycleDataInEEPROMAddr = 1 ∧
    saveInfoToEEPROM (fun _ => 0)
      { cycleDataInEEPROM := true, cycleWheelCircumferenceCM := 30,
        cycleName := trustyBytes, riderName := adaBytes }
      circumferenceAddr = 30 ∧
    readBytes (saveInfoToEEPROM (fun _ => 0)
      { cycleDataInEEPROM := true, cycleWheelCircumferenceCM := 30,
        cycleName := trustyBytes, riderName := adaBytes })
      (riderNameAddr + 1) adaBytes.length = adaBytes :=
  ⟨(claim_C8_layout (fun _ => 0) _ (by decide) (by decide) (by decide)
      (by decide) (by decide)).1,
   (claim_C8_layout (fun _ => 0) _ (by decide) (by decide) (by decide)
      (by decide) (by decide)).2.1,
   (claim_C8_layout (fun _ => 0) _ (by decide) (by decide) (by decide)
      (by decide) (by decide)).2.2.2.1⟩

/-- C9 (code-bug evidence): on a source with only one newline separator --
"30\nTrusty" -- the parse loop of loadCycleData finishes with `pointer = 1`
(only two fields ever touched) and the function nevertheless returns a
record whose third field (riderName) is silently the empty string, with the
other fields populated: no malformed/incomplete-record condition exists
anywhere in loadCycleData (part_000 lines 598-625), which unconditionally
assigns all three fields after the loop. -/
theorem claim_C9_one_separator_silent :
    (parseChars ([51, 48, 10] ++ trustyBytes)).pointer = 1 ∧
    (loadCycleData ([51, 48, 10] ++ trustyBytes) initialConfig).riderName =
      [] ∧
    (loadCycleData ([51, 48, 10] ++ trustyBytes) initialConfig).cycleName =
      trustyBytes ∧
    (loadCycleData ([51, 48, 10] ++ trustyBytes)
      initialConfig).cycleWheelCircumferenceCM = 30 := by
  decide

/-- C10 (code-bug evidence): on the source "0\nA\nB\nC" -- three newline
separators with content after the third field -- the parse loop of
loadCycleData reaches `pointer = 3` and executes `data[pointer] += c` with
`pointer ≥ 3`, an out-of-bounds write into the 3-element local array
`String data[3]` (undefined behaviour), recorded by the model's `oob` flag;
content after the third field is therefore NOT ignored.  Without trailing
content after the third separator ("0\nA\nB\n") the flag stays clear. -/
theorem claim_C10_oob_write :
    (parseChars [48, 10, 65, 10, 66, 10, 67]).oob = true ∧
    (parseChars [48, 10, 65, 10, 66, 10, 67]).pointer = 3 ∧
    (parseChars [48, 10, 65, 10, 66, 10]).oob = false := by
  decide

end CycleSpeedometer
